import Mathlib

/-!
Shallow embedding of the MedicalSite chat widget (src/components/Chatbot.tsx)
and AI gateway (src/services/geminiService.ts).

The widget is modelled as a pure state machine: React state becomes an explicit
`ChatState`, the async streamed response becomes an explicit `StreamOutcome`
value (list of delivered fragments plus whether the stream failed), and the
`Date.now()` calls used to mint message ids become explicit `Nat` parameters.
The external provider is modelled as an oracle function from prompt to result.
-/

namespace MedicalSite

/-- JS `String.prototype.includes` on the underlying character lists:
`matchesAt cs pat` holds when `pat` occurs at the head of `cs`. -/
def matchesAt : List Char → List Char → Bool
  | _, [] => true
  | [], _ :: _ => false
  | c :: cs, p :: ps => c == p && matchesAt cs ps

/-- `containsChars cs pat`: `pat` occurs contiguously somewhere in `cs`. -/
def containsChars : List Char → List Char → Bool
  | [], pat => pat.isEmpty
  | c :: cs, pat => matchesAt (c :: cs) pat || containsChars cs pat

/-- JS `s.includes(sub)`. -/
def jsIncludes (s sub : String) : Bool :=
  containsChars s.data sub.data

/-- JS `String.prototype.trim`: strip whitespace from both ends (modelled on
the underlying character list so that it evaluates by kernel reduction). -/
def jsTrim (s : String) : String :=
  String.mk (((s.data.dropWhile Char.isWhitespace).reverse.dropWhile
    Char.isWhitespace).reverse)

/-- JS `String.prototype.toLowerCase` (modelled on the underlying character
list so that it evaluates by kernel reduction). -/
def jsToLower (s : String) : String :=
  String.mk (s.data.map Char.toLower)

/-- Message sender, the `sender: 'user' | 'bot'` field. -/
inductive Sender where
  | user
  | bot
deriving DecidableEq, Repr

/-- The widget `Message` record: `{ id: string; sender: 'user' | 'bot'; text: string }`. -/
structure Message where
  id : String
  sender : Sender
  text : String
deriving DecidableEq, Repr

/-- One streamed response fragment (`GenerateContentResponse`): its `text`
field may be absent (`none`) or present (`some s`, possibly empty). -/
structure GenChunk where
  text : Option String
deriving DecidableEq, Repr

/-- JS truthiness of `c.text`: present and non-empty. -/
def chunkTruthy (c : GenChunk) : Bool :=
  match c.text with
  | some t => !t.isEmpty
  | none => false

/-- The per-fragment `setMessages` update:
`prev.map(msg => msg.id === botMsgId ? { ...msg, text: botResponseText } : msg)`. -/
def updatePlaceholder (botMsgId : String) (acc : String) (msgs : List Message) :
    List Message :=
  msgs.map fun msg => if msg.id == botMsgId then { msg with text := acc } else msg

/-- The `for await (const chunk of response)` loop: starting from accumulator
`acc` and message list `msgs`, fold the delivered chunks; a chunk with truthy
text extends the accumulator and overwrites the placeholder, any other chunk is
skipped. Returns the final accumulator and message list. -/
def consumeChunks (botMsgId : String) :
    String → List Message → List GenChunk → String × List Message
  | acc, msgs, [] => (acc, msgs)
  | acc, msgs, c :: rest =>
    if chunkTruthy c then
      let acc2 := acc ++ c.text.getD ""
      consumeChunks botMsgId acc2 (updatePlaceholder botMsgId acc2 msgs) rest
    else
      consumeChunks botMsgId acc msgs rest

/-- Concatenation, in delivery order, of the texts of the streamed fragments
(a fragment with no text field contributes nothing; an empty text contributes
the empty string). -/
def chunkConcat : List GenChunk → String
  | [] => ""
  | c :: rest => (c.text.getD "") ++ chunkConcat rest

/-- The widget state: message list, input box contents, the `isLoading`
in-flight flag, and whether `chatSessionRef.current` is non-null. -/
structure ChatState where
  messages : List Message
  input : String
  isLoading : Bool
  hasSession : Bool
deriving DecidableEq, Repr

/-- The lead-capture callback payload shape `{ name?: string; interest?: string }`. -/
structure LeadInfo where
  name : Option String := none
  interest : Option String := none
deriving DecidableEq, Repr

/-- Outcome of the provider interaction inside one `handleSend` call:
either `sendMessageStream` itself throws (before the placeholder is added),
or the stream delivers `chunks` and then either finishes (`failed = false`)
or raises (`failed = true`). -/
inductive StreamOutcome where
  | failBeforeStream
  | streamed (chunks : List GenChunk) (failed : Bool)
deriving DecidableEq, Repr

/-- Result of one `handleSend` call: the final widget state, the list of
lead-capture callback invocations it performed, and whether a provider request
was started (`sendMessageStream` was called). -/
structure SendResult where
  state : ChatState
  leads : List LeadInfo
  requested : Bool
deriving DecidableEq, Repr

/-- The fixed apology message text appended on any send failure. -/
def apologyText : String :=
  "I\x27m having trouble connecting right now. Please call our office directly."

/-- The seeded greeting message. -/
def initialGreeting : Message :=
  { id := "init", sender := .bot,
    text := "Hello! I\x27m Lumi. How can I help you achieve your wellness goals today?" }

/-- Initial widget state. -/
def initialState : ChatState :=
  { messages := [initialGreeting], input := "", isLoading := false, hasSession := false }

/-- The keyword heuristic guarding the lead-capture callback:
`input.toLowerCase().includes('booking') || input.toLowerCase().includes('appointment')`. -/
def leadHeuristic (input : String) : Bool :=
  jsIncludes (jsToLower input) "booking" || jsIncludes (jsToLower input) "appointment"

/-- `handleSend`, as a pure function. `now` is the value of `Date.now()` at the
top of the call (user message id `toString now`, placeholder id
`toString (now + 1)`); `errNow` is the value of `Date.now()` in the catch
block. The guard is exactly the source guard
`if (!input.trim() || !chatSessionRef.current) return;` — it does NOT inspect
`isLoading`. -/
def handleSend (now errNow : Nat) (outcome : StreamOutcome) (s : ChatState) :
    SendResult :=
  if (jsTrim s.input).isEmpty || !s.hasSession then
    { state := s, leads := [], requested := false }
  else
    let input := s.input
    let userMsg : Message := { id := toString now, sender := .user, text := input }
    let s1 : ChatState :=
      { s with messages := s.messages ++ [userMsg], input := "", isLoading := true }
    match outcome with
    | .failBeforeStream =>
      { state :=
          { s1 with
            messages := s1.messages ++
              [{ id := toString errNow, sender := .bot, text := apologyText }],
            isLoading := false },
        leads := [], requested := true }
    | .streamed chunks failed =>
      let botMsgId := toString (now + 1)
      let withPlaceholder :=
        s1.messages ++ [{ id := botMsgId, sender := .bot, text := "" }]
      let result := consumeChunks botMsgId "" withPlaceholder chunks
      if failed then
        { state :=
            { s1 with
              messages := result.2 ++
                [{ id := toString errNow, sender := .bot, text := apologyText }],
              isLoading := false },
          leads := [], requested := true }
      else
        { state := { s1 with messages := result.2, isLoading := false },
          leads :=
            if leadHeuristic input then
              [{ interest := some "General Inquiry (Chat)" }]
            else [],
          requested := true }

/-- The send button is rendered with `disabled={isLoading || !input.trim()}`. -/
def sendButtonDisabled (s : ChatState) : Bool :=
  s.isLoading || (jsTrim s.input).isEmpty

/-- A click on the send button: disabled buttons do not fire, otherwise the
click handler runs `handleSend`. -/
def sendViaButton (now errNow : Nat) (outcome : StreamOutcome) (s : ChatState) :
    SendResult :=
  if sendButtonDisabled s then { state := s, leads := [], requested := false }
  else handleSend now errNow outcome s

/-- The input box key handler `(e) => e.key === 'Enter' && handleSend()`:
it runs `handleSend` on Enter with no further guard. -/
def sendViaEnter (key : String) (now errNow : Nat) (outcome : StreamOutcome)
    (s : ChatState) : SendResult :=
  if key == "Enter" then handleSend now errNow outcome s
  else { state := s, leads := [], requested := false }

/-- Chat session configuration fixed by `createChatSession` (temperature 0.7
is stored in tenths to stay in exact arithmetic). -/
structure ChatSessionConfig where
  temperatureTenths : Nat
  systemInstruction : String
deriving DecidableEq, Repr

/-- An opaque provider session handle, carrying the fixed model id and config. -/
structure ChatSession where
  model : String
  config : ChatSessionConfig
deriving DecidableEq, Repr

/-- The fixed system instruction passed by `createChatSession`. -/
def lumiSystemInstruction : String :=
  "You are \x27Lumi\x27, the intelligent virtual assistant for Lumina Medical, a premium medical clinic specializing in Dental Implants, IV Therapy, and Weight Loss. Your goal is to assist website visitors by: 1. Answering questions about our services pleasantly and professionally. 2. Encouraging them to book an appointment. 3. Collecting their name and interest if they seem interested (lead generation). Tone: Professional, empathetic, trustworthy, and concise. Do not provide specific medical advice (diagnoses). Always suggest a consultation with Dr. Chen or Dr. Ross for medical concerns. If asked about prices, give the ranges provided in your knowledge base or suggest booking a free consultation for a quote."

/-- `createChatSession`: builds the fixed-configuration session. -/
def createChatSession : ChatSession :=
  { model := "gemini-3-flash-preview",
    config := { temperatureTenths := 7, systemInstruction := lumiSystemInstruction } }

/-- One run of the `useEffect` body for the session ref:
`if (isOpen && !chatSessionRef.current) chatSessionRef.current = createChatSession()`.
Returns the new ref value and whether a session was created on this run. -/
def sessionEffect (isOpen : Bool) (session : Option ChatSession) :
    Option ChatSession × Bool :=
  if isOpen && session.isNone then (some createChatSession, true)
  else (session, false)

/-- Fold a sequence of effect runs (one per render where the effect fires,
each seeing the then-current `isOpen`) over the session ref, counting how many
sessions were created in total. -/
def runEffects : List Bool → Option ChatSession → Option ChatSession × Nat
  | [], sess => (sess, 0)
  | isOpen :: rest, sess =>
    let step := sessionEffect isOpen sess
    let tail := runEffects rest step.1
    (tail.1, (if step.2 then 1 else 0) + tail.2)

/-- Result of one one-shot provider call `ai.models.generateContent`:
success with a possibly absent/empty `text`, or a thrown error. -/
inductive ProviderResult where
  | ok (text : Option String)
  | err
deriving DecidableEq, Repr

/-- The `type` argument of `generateMarketingContent`. -/
inductive ContentKind where
  | blog
  | service_desc
deriving DecidableEq, Repr

/-- The prompt template chosen by `generateMarketingContent`. -/
def marketingPrompt (topic : String) (kind : ContentKind) : String :=
  match kind with
  | .blog =>
    "Write a short, engaging, SEO-friendly blog post intro (approx 150 words) for a medical clinic about: \"" ++ topic ++ "\". Focus on patient benefits and trust."
  | .service_desc =>
    "Write a compelling 2-sentence service description for: \"" ++ topic ++ "\". Focus on luxury, comfort, and results."

/-- JS `a || b` on an optional string `a`: the fallback is used when the text
is absent or empty (falsy). -/
def jsOrString (t : Option String) (fallback : String) : String :=
  match t with
  | some s => if s.isEmpty then fallback else s
  | none => fallback

/-- `generateMarketingContent`, with the external provider passed in as an
oracle from prompt to result. Total: the catch branch is the `.err` case, so
no error escapes. -/
def generateMarketingContent (topic : String) (kind : ContentKind)
    (provider : String → ProviderResult) : String :=
  match provider (marketingPrompt topic kind) with
  | .ok t => jsOrString t "Content generation failed."
  | .err => "Unable to generate content at this time. Please try again later."

/-- The prompt built by `analyzeLeads`; `serializedLeads` stands for
`JSON.stringify(leadsData)`. -/
def analyzeLeadsPrompt (serializedLeads : String) : String :=
  "Analyze these anonymized leads and suggest 3 actionable marketing improvements in JSON format (just the insights text, no markdown): " ++ serializedLeads

/-- `analyzeLeads`, with the provider as an oracle. Total: no error escapes. -/
def analyzeLeads (serializedLeads : String)
    (provider : String → ProviderResult) : String :=
  match provider (analyzeLeadsPrompt serializedLeads) with
  | .ok t => jsOrString t "No insights available."
  | .err => "Analysis unavailable."

/-! ### Helper lemmas -/

theorem string_append_empty (s : String) : s ++ "" = s := by
  cases s with
  | mk data => show String.mk (data ++ []) = String.mk data
               rw [List.append_nil]

theorem string_append_assoc (a b c : String) : a ++ b ++ c = a ++ (b ++ c) := by
  cases a with
  | mk da =>
    cases b with
    | mk db =>
      cases c with
      | mk dc => show String.mk (da ++ db ++ dc) = String.mk (da ++ (db ++ dc))
                 rw [List.append_assoc]

theorem string_empty_append (s : String) : "" ++ s = s := by
  cases s with
  | mk data => show String.mk ([] ++ data) = String.mk data
               rw [List.nil_append]

theorem consumeChunks_falsy (bid acc : String) (msgs : List Message)
    (c : GenChunk) (cs : List GenChunk) (h : chunkTruthy c = false) :
    consumeChunks bid acc msgs (c :: cs) = consumeChunks bid acc msgs cs := by
  simp [consumeChunks, h]

theorem consumeChunks_truthy (bid acc : String) (msgs : List Message)
    (c : GenChunk) (cs : List GenChunk) (t : String) (hc : c.text = some t)
    (h : chunkTruthy c = true) :
    consumeChunks bid acc msgs (c :: cs) =
      consumeChunks bid (acc ++ t) (updatePlaceholder bid (acc ++ t) msgs) cs := by
  simp [consumeChunks, h, hc]

theorem chunkConcat_falsy (c : GenChunk) (cs : List GenChunk)
    (h : chunkTruthy c = false) : chunkConcat (c :: cs) = chunkConcat cs := by
  cases hc : c.text with
  | none => simp [chunkConcat, hc, string_empty_append]
  | some t =>
    have ht : t = "" := by
      have : t.isEmpty := by
        by_contra hne
        simp [chunkTruthy, hc, hne] at h
      exact (String.isEmpty_iff t).mp this
    simp [chunkConcat, hc, ht, string_empty_append]

theorem consumeChunks_fst (bid : String) (chunks : List GenChunk) :
    ∀ (acc : String) (msgs : List Message),
      (consumeChunks bid acc msgs chunks).1 = acc ++ chunkConcat chunks := by
  induction chunks with
  | nil =>
    intro acc msgs
    simp [consumeChunks, chunkConcat, string_append_empty]
  | cons c rest ih =>
    intro acc msgs
    by_cases ht : chunkTruthy c = true
    · obtain ⟨t, hc⟩ : ∃ t, c.text = some t := by
        cases hc : c.text with
        | none => simp [chunkTruthy, hc] at ht
        | some t => exact ⟨t, rfl⟩
      rw [consumeChunks_truthy bid acc msgs c rest t hc ht, ih]
      simp [chunkConcat, hc, string_append_assoc]
    · have ht2 : chunkTruthy c = false := by simpa using ht
      rw [consumeChunks_falsy bid acc msgs c rest ht2, ih,
        chunkConcat_falsy c rest ht2]

theorem updatePlaceholder_fresh (bid t : String) (pre : List Message) (m : Message)
    (hfresh : ∀ x ∈ pre, x.id ≠ bid) (hm : m.id = bid) :
    updatePlaceholder bid t (pre ++ [m]) = pre ++ [{ m with text := t }] := by
  unfold updatePlaceholder
  rw [List.map_append]
  congr 1
  · rw [List.map_congr_left (g := id) ?eq, List.map_id]
    intro x hx
    have hne : (x.id == bid) = false := by
      simp only [beq_eq_false_iff_ne, ne_eq]
      exact hfresh x hx
    simp [hne]
  · simp [hm]

theorem consumeChunks_snd (bid : String) (chunks : List GenChunk) :
    ∀ (acc : String) (pre : List Message), (∀ x ∈ pre, x.id ≠ bid) →
      (consumeChunks bid acc (pre ++ [{ id := bid, sender := .bot, text := acc }]) chunks).2 =
        pre ++ [{ id := bid, sender := .bot, text := acc ++ chunkConcat chunks }] := by
  induction chunks with
  | nil =>
    intro acc pre hfresh
    simp [consumeChunks, chunkConcat, string_append_empty]
  | cons c rest ih =>
    intro acc pre hfresh
    by_cases ht : chunkTruthy c = true
    · obtain ⟨t, hc⟩ : ∃ t, c.text = some t := by
        cases hc : c.text with
        | none => simp [chunkTruthy, hc] at ht
        | some t => exact ⟨t, rfl⟩
      rw [consumeChunks_truthy bid acc _ c rest t hc ht,
        updatePlaceholder_fresh bid (acc ++ t) pre _ hfresh rfl]
      have h3 : acc ++ chunkConcat (c :: rest) = (acc ++ t) ++ chunkConcat rest := by
        simp [chunkConcat, hc, string_append_assoc]
      rw [h3]
      exact ih (acc ++ t) pre hfresh
    · have ht2 : chunkTruthy c = false := by simpa using ht
      rw [consumeChunks_falsy bid acc _ c rest ht2, ih acc pre hfresh,
        chunkConcat_falsy c rest ht2]

theorem updatePlaceholder_length (bid acc : String) (msgs : List Message) :
    (updatePlaceholder bid acc msgs).length = msgs.length := by
  simp [updatePlaceholder]

theorem consumeChunks_length (bid : String) (chunks : List GenChunk) :
    ∀ (acc : String) (msgs : List Message),
      (consumeChunks bid acc msgs chunks).2.length = msgs.length := by
  induction chunks with
  | nil => intro acc msgs; simp [consumeChunks]
  | cons c rest ih =>
    intro acc msgs
    by_cases ht : chunkTruthy c = true
    · simp [consumeChunks, ht, ih, updatePlaceholder_length]
    · simp [consumeChunks, ht, ih]

theorem consumeChunks_snd_init (bid : String) (chunks : List GenChunk)
    (pre : List Message) (hfresh : ∀ x ∈ pre, x.id ≠ bid) :
    (consumeChunks bid "" (pre ++ [{ id := bid, sender := .bot, text := "" }]) chunks).2 =
      pre ++ [{ id := bid, sender := .bot, text := chunkConcat chunks }] := by
  rw [consumeChunks_snd bid chunks "" pre hfresh, string_empty_append]

/-! ### Claim theorems -/

/-- C1: for every non-empty input sent while not in flight with a session
present, a successful `handleSend` appends exactly one user message carrying
the input verbatim followed by exactly one bot message whose final text is the
concatenation, in delivery order, of the streamed fragment texts.
(The freshness hypotheses say the two freshly minted `Date.now()`-based ids do
not collide with existing message ids, which holds of real timestamps.) -/
theorem c1_send_appends_user_then_bot
    (now errNow : Nat) (chunks : List GenChunk) (s : ChatState)
    (hinput : (jsTrim s.input).isEmpty = false)
    (hsess : s.hasSession = true)
    (_hload : s.isLoading = false)
    (hfresh : ∀ m ∈ s.messages, m.id ≠ toString (now + 1))
    (hne : toString now ≠ toString (now + 1)) :
    (handleSend now errNow (.streamed chunks false) s).state.messages =
      s.messages ++
        [{ id := toString now, sender := .user, text := s.input },
         { id := toString (now + 1), sender := .bot, text := chunkConcat chunks }] := by
  have hfresh2 : ∀ x ∈ s.messages ++
      [{ id := toString now, sender := .user, text := s.input : Message }],
      x.id ≠ toString (now + 1) := by
    intro x hx
    rcases List.mem_append.mp hx with h | h
    · exact hfresh x h
    · rcases List.mem_singleton.mp h with rfl
      exact hne
  simp only [handleSend, hinput, hsess, Bool.not_true, Bool.or_false,
    Bool.false_eq_true, if_false, reduceIte]
  rw [consumeChunks_snd_init (toString (now + 1)) chunks _ hfresh2]
  rw [List.append_assoc]
  rfl

/-- C1 witness at a concrete state and fragment list. -/
theorem c1_witness :
    (handleSend 5 9 (.streamed [⟨some "Hi "⟩, ⟨none⟩, ⟨some ""⟩, ⟨some "there"⟩] false)
      { messages := [initialGreeting], input := "Hello?", isLoading := false,
        hasSession := true }).state.messages =
      [initialGreeting] ++
        [{ id := "5", sender := .user, text := "Hello?" },
         { id := "6", sender := .bot, text := chunkConcat
            [⟨some "Hi "⟩, ⟨none⟩, ⟨some ""⟩, ⟨some "there"⟩] }] :=
  c1_send_appends_user_then_bot 5 9 _ _ (by decide) rfl rfl (by decide) (by decide)

/-- C2 counterexample: in a state whose in-flight flag is set, with non-empty
input and an existing session, an Enter-key send is NOT a no-op — the message
list changes and a second provider request is started, because `handleSend`
never inspects `isLoading`. -/
theorem c2_counterexample :
    (sendViaEnter "Enter" 5 9 (.streamed [] false)
      { messages := [initialGreeting], input := "hi", isLoading := true,
        hasSession := true }).state.messages ≠ [initialGreeting] ∧
    (sendViaEnter "Enter" 5 9 (.streamed [] false)
      { messages := [initialGreeting], input := "hi", isLoading := true,
        hasSession := true }).requested = true := by
  decide

/-- C2 (amended): while a send is in flight the send button is disabled, so a
button-triggered send leaves the whole state unchanged and starts no request;
but `handleSend` itself performs no in-flight check, so an Enter-key send with
non-empty input and an existing session does proceed — it starts a second
provider request and grows the message list. -/
theorem c2_inflight_button_noop_enter_proceeds
    (now errNow : Nat) (outcome : StreamOutcome) (s : ChatState)
    (h : s.isLoading = true) :
    sendViaButton now errNow outcome s =
      { state := s, leads := [], requested := false } ∧
    ((jsTrim s.input).isEmpty = false → s.hasSession = true →
      (sendViaEnter "Enter" now errNow outcome s).requested = true ∧
      s.messages.length <
        (sendViaEnter "Enter" now errNow outcome s).state.messages.length) := by
  constructor
  · simp [sendViaButton, sendButtonDisabled, h]
  · intro hinput hsess
    constructor
    · cases outcome with
      | failBeforeStream => simp [sendViaEnter, handleSend, hinput, hsess]
      | streamed chunks failed =>
        cases failed <;> simp [sendViaEnter, handleSend, hinput, hsess]
    · cases outcome with
      | failBeforeStream =>
        simp [sendViaEnter, handleSend, hinput, hsess]
      | streamed chunks failed =>
        cases failed <;>
          simp [sendViaEnter, handleSend, hinput, hsess, consumeChunks_length] <;>
          omega

/-- C2 (amended) witness at a concrete in-flight state. -/
theorem c2_witness :
    (sendViaButton 5 9 (.streamed [⟨some "x"⟩] false)
      { messages := [initialGreeting], input := "hi", isLoading := true,
        hasSession := true }) =
      { state := { messages := [initialGreeting], input := "hi",
                   isLoading := true, hasSession := true },
        leads := [],
        requested := false } ∧
    (sendViaEnter "Enter" 5 9 (.streamed [⟨some "x"⟩] false)
      { messages := [initialGreeting], input := "hi", isLoading := true,
        hasSession := true }).requested = true := by
  have h := c2_inflight_button_noop_enter_proceeds 5 9 (.streamed [⟨some "x"⟩] false)
    { messages := [initialGreeting], input := "hi", isLoading := true,
      hasSession := true } rfl
  exact ⟨h.1, (h.2 (by decide) rfl).1⟩

/-- C3: if the stream fails after delivering some fragments, the final message
list keeps the partial placeholder bot message (text = concatenation of the
fragments delivered before the failure) unrolled-back, immediately followed by
exactly one additional bot message with the fixed apology text, and in-flight
is false afterwards. -/
theorem c3_stream_failure_keeps_partial_appends_apology
    (now errNow : Nat) (chunks : List GenChunk) (s : ChatState)
    (hinput : (jsTrim s.input).isEmpty = false)
    (hsess : s.hasSession = true)
    (hfresh : ∀ m ∈ s.messages, m.id ≠ toString (now + 1))
    (hne : toString now ≠ toString (now + 1)) :
    (handleSend now errNow (.streamed chunks true) s).state.messages =
      s.messages ++
        [{ id := toString now, sender := .user, text := s.input },
         { id := toString (now + 1), sender := .bot, text := chunkConcat chunks },
         { id := toString errNow, sender := .bot, text := apologyText }] ∧
    (handleSend now errNow (.streamed chunks true) s).state.isLoading = false := by
  have hfresh2 : ∀ x ∈ s.messages ++
      [{ id := toString now, sender := .user, text := s.input : Message }],
      x.id ≠ toString (now + 1) := by
    intro x hx
    rcases List.mem_append.mp hx with h | h
    · exact hfresh x h
    · rcases List.mem_singleton.mp h with rfl
      exact hne
  constructor
  · simp only [handleSend, hinput, hsess, Bool.not_true, Bool.or_false,
      Bool.false_eq_true, if_false, reduceIte]
    rw [consumeChunks_snd_init (toString (now + 1)) chunks _ hfresh2]
    simp [List.append_assoc]
  · simp [handleSend, hinput, hsess]

/-- C3 witness: fragments `["Hel", "lo"]` then failure leave a placeholder
reading `"Hello"` followed by the apology message. -/
theorem c3_witness :
    (handleSend 5 9 (.streamed [⟨some "Hel"⟩, ⟨some "lo"⟩] true)
      { messages := [initialGreeting], input := "Will it rain?",
        isLoading := false, hasSession := true }).state.messages =
      [initialGreeting,
       { id := "5", sender := .user, text := "Will it rain?" },
       { id := "6", sender := .bot, text := "Hello" },
       { id := "9", sender := .bot, text := apologyText }] ∧
    (handleSend 5 9 (.streamed [⟨some "Hel"⟩, ⟨some "lo"⟩] true)
      { messages := [initialGreeting], input := "Will it rain?",
        isLoading := false, hasSession := true }).state.isLoading = false := by
  have h := c3_stream_failure_keeps_partial_appends_apology 5 9
    [⟨some "Hel"⟩, ⟨some "lo"⟩]
    { messages := [initialGreeting], input := "Will it rain?",
      isLoading := false, hasSession := true }
    (by decide) rfl (by decide) (by decide)
  refine ⟨?_, h.2⟩
  rw [h.1]
  decide

/-- C4: after a send that passes the guard, the lead-capture callback fires
exactly once with interest "General Inquiry (Chat)" if and only if the stream
succeeded and the original input contains (case-insensitively) the substring
"booking" or "appointment"; it never fires when the stream fails. -/
theorem c4_lead_capture
    (now errNow : Nat) (s : ChatState)
    (hinput : (jsTrim s.input).isEmpty = false)
    (hsess : s.hasSession = true) :
    (∀ chunks, (handleSend now errNow (.streamed chunks false) s).leads =
        (if leadHeuristic s.input then
          [{ name := none, interest := some "General Inquiry (Chat)" }]
        else [])) ∧
    (∀ chunks, (handleSend now errNow (.streamed chunks true) s).leads = []) ∧
    (handleSend now errNow .failBeforeStream s).leads = [] := by
  refine ⟨fun chunks => ?_, fun chunks => ?_, ?_⟩ <;>
    simp [handleSend, hinput, hsess]

/-- C4 witness: a booking question triggers exactly one callback, an unrelated
question none, and a failed stream none even for a booking question. -/
theorem c4_witness :
    (handleSend 5 9 (.streamed [⟨some "Sure!"⟩] false)
      { messages := [], input := "Can I book an appointment for Friday?",
        isLoading := false, hasSession := true }).leads =
      [{ name := none, interest := some "General Inquiry (Chat)" }] ∧
    (handleSend 5 9 (.streamed [⟨some "We are open daily."⟩] false)
      { messages := [], input := "What are your hours?",
        isLoading := false, hasSession := true }).leads = [] ∧
    (handleSend 5 9 (.streamed [⟨some "Sure!"⟩] true)
      { messages := [], input := "Can I book an appointment for Friday?",
        isLoading := false, hasSession := true }).leads = [] := by
  refine ⟨?_, ?_, ?_⟩
  · rw [(c4_lead_capture 5 9
      { messages := [], input := "Can I book an appointment for Friday?",
        isLoading := false, hasSession := true } (by decide) rfl).1 [⟨some "Sure!"⟩]]
    decide
  · rw [(c4_lead_capture 5 9
      { messages := [], input := "What are your hours?",
        isLoading := false, hasSession := true } (by decide) rfl).1
      [⟨some "We are open daily."⟩]]
    decide
  · exact (c4_lead_capture 5 9
      { messages := [], input := "Can I book an appointment for Friday?",
        isLoading := false, hasSession := true } (by decide) rfl).2.1
      [⟨some "Sure!"⟩]

/-- C5: a send with empty/whitespace-only input, or with no session handle,
returns the state completely unchanged, fires no callback, and issues no
provider request. -/
theorem c5_guard_noop
    (now errNow : Nat) (outcome : StreamOutcome) (s : ChatState)
    (h : (jsTrim s.input).isEmpty = true ∨ s.hasSession = false) :
    handleSend now errNow outcome s =
      { state := s, leads := [], requested := false } := by
  rcases h with h | h
  · simp [handleSend, h]
  · simp [handleSend, h]

/-- C5 witness: whitespace-only input, and a missing session, both no-op. -/
theorem c5_witness :
    handleSend 5 9 (.streamed [⟨some "x"⟩] false)
      { messages := [initialGreeting], input := "   ", isLoading := false,
        hasSession := true } =
      { state := { messages := [initialGreeting], input := "   ",
                   isLoading := false, hasSession := true },
        leads := [], requested := false } ∧
    handleSend 5 9 .failBeforeStream
      { messages := [initialGreeting], input := "hello", isLoading := false,
        hasSession := false } =
      { state := { messages := [initialGreeting], input := "hello",
                   isLoading := false, hasSession := false },
        leads := [], requested := false } :=
  ⟨c5_guard_noop 5 9 _ _ (Or.inl (by decide)),
   c5_guard_noop 5 9 _ _ (Or.inr rfl)⟩

theorem runEffects_some (c : ChatSession) (opens : List Bool) :
    runEffects opens (some c) = (some c, 0) := by
  induction opens with
  | nil => rfl
  | cons b rest ih => simp [runEffects, sessionEffect, ih]

theorem runEffects_none_count (opens : List Bool) :
    (runEffects opens none).2 = (if opens.contains true then 1 else 0) := by
  induction opens with
  | nil => rfl
  | cons b rest ih =>
    cases b with
    | false => simpa [runEffects, sessionEffect] using ih
    | true => simp [runEffects, sessionEffect, runEffects_some]

theorem runEffects_first_open (pre post : List Bool)
    (hpre : ∀ b ∈ pre, b = false) :
    runEffects (pre ++ true :: post) none = (some createChatSession, 1) := by
  induction pre with
  | nil => simp [runEffects, sessionEffect, runEffects_some]
  | cons b rest ih =>
    have hb : b = false := hpre b (by simp)
    subst hb
    have hrest : ∀ x ∈ rest, x = false := fun x hx => hpre x (by simp [hx])
    simp [runEffects, sessionEffect, ih hrest]

/-- C6: the chat session is created lazily and at most once per widget
instance. Once a session handle exists, any further effect runs leave it
untouched and create nothing; from a fresh widget the number of sessions ever
created is 1 when some render sees the widget open (0 otherwise); and with the
first open happening after any run of closed renders, exactly one session —
the fixed-configuration one — is created. -/
theorem c6_session_lazy_singleton
    (c : ChatSession) (opens pre post : List Bool)
    (hpre : ∀ b ∈ pre, b = false) :
    runEffects opens (some c) = (some c, 0) ∧
    (runEffects opens none).2 = (if opens.contains true then 1 else 0) ∧
    runEffects (pre ++ true :: post) none = (some createChatSession, 1) :=
  ⟨runEffects_some c opens, runEffects_none_count opens,
   runEffects_first_open pre post hpre⟩

/-- C6 witness at concrete effect traces. -/
theorem c6_witness :
    runEffects [false, true, true] (some createChatSession) =
      (some createChatSession, 0) ∧
    (runEffects [false, true, true] none).2 = 1 ∧
    runEffects ([false, false] ++ true :: [false, true]) none =
      (some createChatSession, 1) := by
  have h := c6_session_lazy_singleton createChatSession [false, true, true]
    [false, false] [false, true] (by decide)
  refine ⟨h.1, ?_, h.2.2⟩
  rw [h.2.1]
  decide

/-- C7: the one-shot helpers never raise (they are total functions of the
provider outcome), and when the provider call fails they return exactly the
fixed fallback strings. -/
theorem c7_helpers_swallow_errors
    (topic : String) (kind : ContentKind) (serializedLeads : String)
    (provider : String → ProviderResult)
    (h1 : provider (marketingPrompt topic kind) = .err)
    (h2 : provider (analyzeLeadsPrompt serializedLeads) = .err) :
    generateMarketingContent topic kind provider =
      "Unable to generate content at this time. Please try again later." ∧
    analyzeLeads serializedLeads provider = "Analysis unavailable." := by
  constructor
  · simp [generateMarketingContent, h1]
  · simp [analyzeLeads, h2]

/-- C7 witness with an always-failing provider. -/
theorem c7_witness :
    generateMarketingContent "teeth whitening" .service_desc (fun _ => .err) =
      "Unable to generate content at this time. Please try again later." ∧
    analyzeLeads "[]" (fun _ => .err) = "Analysis unavailable." :=
  c7_helpers_swallow_errors "teeth whitening" .service_desc "[]"
    (fun _ => .err) rfl rfl

/-- C8: a fragment whose text is empty or absent (falsy) is a no-op during
stream consumption — it changes neither the accumulator nor the message list —
and after any prefix of fragments the accumulator (hence the placeholder text)
equals the concatenation of the fragment texts of that prefix (to which the
empty or absent ones contribute nothing). -/
theorem c8_falsy_fragment_noop :
    (∀ (bid acc : String) (msgs : List Message) (c : GenChunk)
        (cs : List GenChunk), chunkTruthy c = false →
        consumeChunks bid acc msgs (c :: cs) = consumeChunks bid acc msgs cs) ∧
    (∀ (bid acc : String) (msgs : List Message) (chunks : List GenChunk),
        (consumeChunks bid acc msgs chunks).1 = acc ++ chunkConcat chunks) ∧
    (∀ (bid : String) (pre : List Message) (chunks : List GenChunk),
        (∀ m ∈ pre, m.id ≠ bid) →
        (consumeChunks bid ""
          (pre ++ [{ id := bid, sender := .bot, text := "" }]) chunks).2 =
          pre ++ [{ id := bid, sender := .bot, text := chunkConcat chunks }]) :=
  ⟨fun bid acc msgs c cs h => consumeChunks_falsy bid acc msgs c cs h,
   fun bid acc msgs chunks => consumeChunks_fst bid chunks acc msgs,
   fun bid pre chunks h => consumeChunks_snd_init bid chunks pre h⟩

/-- C8 witness: an empty-text fragment is skipped, and a run with an absent
and an empty fragment still yields the concatenation of the real texts. -/
theorem c8_witness :
    consumeChunks "6" "Hel" [] [⟨some ""⟩, ⟨some "lo"⟩] =
      consumeChunks "6" "Hel" [] [⟨some "lo"⟩] ∧
    (consumeChunks "6" ""
      ([initialGreeting] ++ [{ id := "6", sender := .bot, text := "" }])
      [⟨some "Hel"⟩, ⟨none⟩, ⟨some "lo"⟩]).2 =
      [initialGreeting] ++
        [{ id := "6", sender := .bot,
           text := chunkConcat [⟨some "Hel"⟩, ⟨none⟩, ⟨some "lo"⟩] }] :=
  ⟨c8_falsy_fragment_noop.1 "6" "Hel" [] ⟨some ""⟩ [⟨some "lo"⟩] (by decide),
   c8_falsy_fragment_noop.2.2 "6" [initialGreeting]
     [⟨some "Hel"⟩, ⟨none⟩, ⟨some "lo"⟩] (by decide)⟩

/-- C9: each per-fragment update of the message list preserves its length and
order, maps position `i` to the old message at `i` (with only the text of
id-matching messages replaced), and leaves every message whose id differs from
the placeholder id exactly as it was, at the same position. -/
theorem c9_update_frame (bid acc : String) (msgs : List Message) :
    (updatePlaceholder bid acc msgs).length = msgs.length ∧
    (∀ i : Nat, (updatePlaceholder bid acc msgs)[i]? =
        (msgs[i]?).map fun m =>
          if m.id == bid then { m with text := acc } else m) ∧
    (∀ i : Nat, ∀ m : Message, msgs[i]? = some m → m.id ≠ bid →
        (updatePlaceholder bid acc msgs)[i]? = some m) := by
  refine ⟨updatePlaceholder_length bid acc msgs, fun i => ?_,
    fun i m hm hne => ?_⟩
  · simp [updatePlaceholder]
  · have hb : (m.id == bid) = false := by
      simp only [beq_eq_false_iff_ne, ne_eq]
      exact hne
    simp [updatePlaceholder, hm, hb]
    exact fun h2 => absurd h2 hne

/-- C9 witness: updating the placeholder in a two-message list keeps the
length and leaves the non-matching greeting untouched at position 0. -/
theorem c9_witness :
    (updatePlaceholder "6" "Hi"
      [initialGreeting, { id := "6", sender := .bot, text := "" }]).length = 2 ∧
    (updatePlaceholder "6" "Hi"
      [initialGreeting, { id := "6", sender := .bot, text := "" }])[0]? =
      some initialGreeting := by
  have h := c9_update_frame "6" "Hi"
    [initialGreeting, { id := "6", sender := .bot, text := "" }]
  exact ⟨h.1, h.2.2 0 initialGreeting rfl (by decide)⟩

/-- C10: when the provider call succeeds but its text is absent or empty, the
one-shot helpers return their empty-result fallbacks — "Content generation
failed." and "No insights available." — each distinct from the (empty)
provider response and from the corresponding error-path fallback string. -/
theorem c10_empty_success_fallbacks
    (topic : String) (kind : ContentKind) (serializedLeads : String)
    (pm pa : String → ProviderResult)
    (h1 : pm (marketingPrompt topic kind) = .ok none ∨
          pm (marketingPrompt topic kind) = .ok (some ""))
    (h2 : pa (analyzeLeadsPrompt serializedLeads) = .ok none ∨
          pa (analyzeLeadsPrompt serializedLeads) = .ok (some "")) :
    generateMarketingContent topic kind pm = "Content generation failed." ∧
    analyzeLeads serializedLeads pa = "No insights available." ∧
    ("Content generation failed." ≠ "" ∧
     "Content generation failed." ≠
       "Unable to generate content at this time. Please try again later.") ∧
    ("No insights available." ≠ "" ∧
     "No insights available." ≠ "Analysis unavailable.") := by
  refine ⟨?_, ?_, ⟨by decide, by decide⟩, ⟨by decide, by decide⟩⟩
  · rcases h1 with h | h <;> simp [generateMarketingContent, h, jsOrString] <;>
      decide
  · rcases h2 with h | h <;> simp [analyzeLeads, h, jsOrString] <;> decide

/-- C10 witness: an absent-text success and an empty-text success. -/
theorem c10_witness :
    generateMarketingContent "teeth whitening" .blog (fun _ => .ok none) =
      "Content generation failed." ∧
    analyzeLeads "[]" (fun _ => .ok (some "")) = "No insights available." := by
  have h := c10_empty_success_fallbacks "teeth whitening" .blog "[]"
    (fun _ => .ok none) (fun _ => .ok (some "")) (Or.inl rfl) (Or.inr rfl)
  exact ⟨h.1, h.2.1⟩

end MedicalSite
